import Mathlib

/-!
Shallow embedding of `kbe.py`, a Keybase chat exporter: the query builder,
the message formatter (`outputmsgs`), and the module-level pagination loop,
together with proofs of the specified properties.
-/

namespace Kbe

/-- Python `x or d` on an optional string: `None` and `""` are falsy. -/
def pyOrStr (x : Option String) (d : String) : String :=
  match x with
  | none => d
  | some s => if s = "" then d else s

/-- Python `x or d` on an optional integer: `None` and `0` are falsy. -/
def pyOrInt (x : Option Int) (d : Int) : Int :=
  match x with
  | none => d
  | some n => if n = 0 then d else n

/-- `pg = 1000`, the module-level page size constant. -/
def pg : Int := 1000

/-- `PaginationOptions`: `num`, and `next` which is `NotRequired` in the
`TypedDict` (hence an `Option` here). -/
structure PaginationOptions where
  num : Int
  next : Option String
deriving Repr, DecidableEq

/-- `ChannelOptions`: the conversation name. -/
structure ChannelOptions where
  name : String
deriving Repr, DecidableEq

/-- `ReadOptions`: channel plus `NotRequired` pagination. -/
structure ReadOptions where
  channel : ChannelOptions
  pagination : Option PaginationOptions
deriving Repr, DecidableEq

/-- `DownloadOptions`: channel, output filename, message id. -/
structure DownloadOptions where
  channel : ChannelOptions
  output : String
  message_id : Int
deriving Repr, DecidableEq

/-- The `options` union inside `QueryParams`. -/
inductive QueryOptions where
  | read (o : ReadOptions)
  | download (o : DownloadOptions)
deriving Repr, DecidableEq

/-- The `method` literal of a `Query`. -/
inductive Method where
  | read
  | download
deriving Repr, DecidableEq

/-- A `Query`: method plus `params.options`. -/
structure Query where
  method : Method
  options : QueryOptions
deriving Repr, DecidableEq

/-- `build_query`.  Read mode always fills the pagination object with
`num = pagination_size or pg` and `next = pagination_start or ""`.
Download mode `assert`s that `file_name` and `message_id` are present;
a failed assertion is modelled as `Except.error ()`. -/
def build_query (conv_name : String) (method : Method)
    (message_id : Option Int) (file_name : Option String)
    (pagination_start : Option String) (pagination_size : Option Int) :
    Except Unit Query :=
  match method with
  | .read =>
      .ok { method := .read
            options := .read
              { channel := { name := conv_name }
                pagination := some
                  { num := pyOrInt pagination_size pg
                    next := some (pyOrStr pagination_start "") } } }
  | .download =>
      match file_name with
      | none => .error ()
      | some f =>
          match message_id with
          | none => .error ()
          | some m =>
              .ok { method := .download
                    options := .download
                      { channel := { name := conv_name }
                        output := f
                        message_id := m } }

/-- Projection: the `pagination.next` field of a read query
(outer `none` when the query is not a read query or lacks pagination). -/
def readNext (q : Query) : Option (Option String) :=
  match q.options with
  | .read o =>
      match o.pagination with
      | some p => some p.next
      | none => none
  | .download _ => none

/-- Projection: the `pagination.num` field of a read query. -/
def readNum (q : Query) : Option Int :=
  match q.options with
  | .read o =>
      match o.pagination with
      | some p => some p.num
      | none => none
  | .download _ => none

/-!  Message model.  The JSON `content` object is untyped in the source:
a `type` string is inspected and variant-specific sub-objects are read by
key.  We model it as a record carrying the `type` string together with the
fields the formatter reads on each branch. -/

/-- The `msg.content` JSON object: its `type` tag and the fields each
recognised branch of `outputmsgs` reads. -/
structure MsgContent where
  type : String
  textBody : String := ""
  reactionB : String := ""
  attachmentFilename : String := ""
  attachmentUploadedFilename : String := ""
  editMessageID : Int := 0
  editBody : String := ""
  deleteMessageIDs : List Int := []
  unfurlUrl : String := ""
deriving Repr, DecidableEq

/-- One entry of `result.messages`: the fields of `entry["msg"]` that the
exporter reads. -/
structure Entry where
  id : Int
  sender : String
  sent_at : Int
  content : MsgContent
deriving Repr, DecidableEq

/-- `get_content_type`. -/
def get_content_type (e : Entry) : String := e.content.type

/-- `get_sender`. -/
def get_sender (e : Entry) : String := e.sender

/-- `get_msg_id`. -/
def get_msg_id (e : Entry) : Int := e.id

/-- `get_filename`: filename accessor for the two attachment variants; on
any other content type the source prints a diagnostic and exits with
status 1, modelled as `Except.error ()`. -/
def get_filename (e : Entry) : Except Unit String :=
  if get_content_type e = "attachment" then
    .ok e.content.attachmentFilename
  else if get_content_type e = "attachmentuploaded" then
    .ok e.content.attachmentUploadedFilename
  else
    .error ()

/-- Python `.replace('/', '_')`: the pattern being a single character,
this is exactly the map replacing every `/` character by `_`. -/
def replaceSlash (s : String) : String :=
  String.mk (s.data.map (fun c => if c = '/' then '_' else c))

/-- `mk_out_filename`: the derived attachment destination path
`<conv_dir>/msg_id_<id>_<filename with / replaced by _>`. -/
def mk_out_filename (conv_dir : String) (e : Entry) : Except Unit String := do
  let f ← get_filename e
  .ok (conv_dir ++ "/msg_id_" ++ toString (get_msg_id e) ++ "_"
        ++ replaceSlash f)

/-!  UTC timestamp formatting, mirroring
`datetime.utcfromtimestamp(sent_at).strftime("%Y-%m-%d %H:%M:%S")`.
The civil-date computation uses the standard days-to-ymd algorithm. -/

/-- Convert a day count relative to 1970-01-01 to a (year, month, day)
Gregorian civil date. -/
def civilFromDays (z0 : Int) : Int × Nat × Nat :=
  let z : Int := z0 + 719468
  let era : Int := Int.fdiv z 146097
  let doe : Nat := (z - era * 146097).toNat
  let yoe : Nat := (doe - doe / 1460 + doe / 36524 - doe / 146096) / 365
  let doy : Nat := doe - (365 * yoe + yoe / 4 - yoe / 100)
  let mp : Nat := (5 * doy + 2) / 153
  let d : Nat := doy - (153 * mp + 2) / 5 + 1
  let m : Nat := if mp < 10 then mp + 3 else mp - 9
  let y : Int := (yoe : Int) + era * 400 + (if m ≤ 2 then 1 else 0)
  (y, m, d)

/-- Zero-pad a number to two digits. -/
def pad2 (n : Nat) : String :=
  if n < 10 then "0" ++ toString n else toString n

/-- Zero-pad a year to four digits (as `%Y` does for the years at hand). -/
def pad4 (n : Int) : String :=
  if n < 0 then toString n
  else if n < 10 then "000" ++ toString n
  else if n < 100 then "00" ++ toString n
  else if n < 1000 then "0" ++ toString n
  else toString n

/-- `datetime.utcfromtimestamp(t).strftime("%Y-%m-%d %H:%M:%S")`. -/
def formatUtc (t : Int) : String :=
  let days : Int := Int.fdiv t 86400
  let sod : Nat := (t - 86400 * days).toNat
  let ymd := civilFromDays days
  pad4 ymd.1 ++ "-" ++ pad2 ymd.2.1 ++ "-" ++ pad2 ymd.2.2 ++ " "
    ++ pad2 (sod / 3600) ++ ":" ++ pad2 (sod % 3600 / 60) ++ ":"
    ++ pad2 (sod % 60)

/-- Python `str` of a list of ints, e.g. `[10, 11]`. -/
def pyStrIntList (xs : List Int) : String :=
  "[" ++ String.intercalate ", " (xs.map toString) ++ "]"

/-- The module-level configuration a run of `outputmsgs` reads:
`conv_dir`, `conv_name` and the `--skip-attachments` flag. -/
structure RunConfig where
  conv_dir : String
  conv_name : String
  skip_attachments : Bool

/-- The body of the `for entry in ...messages` loop of `outputmsgs`, up to
the final `dest.write`: the rendered `out` text, the download queries
issued, and the file system after the entry (a download makes the
destination file exist — modelled from the spec: for `download` queries
the meaningful effect is the external tool writing the attachment to
disk).  `fs` tells which paths exist (`os.path.exists`). -/
def renderOut (cfg : RunConfig) (fs : String → Bool) (e : Entry) :
    Except Unit (String × List Query × (String → Bool)) :=
  let ctype := get_content_type e
  let content := e.content
  if ctype = "text" then
    .ok ("<" ++ get_sender e ++ "> " ++ content.textBody, [], fs)
  else if ctype = "reaction" then
    .ok ("* " ++ get_sender e ++ ": " ++ content.reactionB, [], fs)
  else if ctype = "attachment" then do
    let file_name ← mk_out_filename cfg.conv_dir e
    let out := get_sender e ++ " sent attachment " ++ file_name
    if cfg.skip_attachments then
      .ok (out, [], fs)
    else if fs file_name then
      .ok (out, [], fs)
    else do
      let q ← build_query cfg.conv_name .download (some (get_msg_id e))
        (some file_name) none none
      .ok (out, [q], fun f => if f = file_name then true else fs f)
  else if ctype = "attachmentuploaded" then do
    let fn ← mk_out_filename cfg.conv_dir e
    .ok (get_sender e ++ " attachment " ++ fn ++ " uploaded", [], fs)
  else if ctype = "edit" then
    .ok (get_sender e ++ " edited message with id "
          ++ toString content.editMessageID ++ " to: " ++ content.editBody,
        [], fs)
  else if ctype = "delete" then
    .ok (get_sender e ++ " deleted message with ids "
          ++ pyStrIntList content.deleteMessageIDs, [], fs)
  else if ctype = "unfurl" then
    .ok (get_sender e ++ " sent unfurl: " ++ content.unfurlUrl, [], fs)
  else
    .ok ("(unknown message type \x27" ++ ctype ++ "\x27)", [], fs)

/-- The record written for one entry:
`f"#{mid} - {sent_at_str} - {out}\n\0"`. -/
def record (mid : Int) (sent_at : Int) (out : String) : String :=
  "#" ++ toString mid ++ " - " ++ formatUtc sent_at ++ " - " ++ out
    ++ "\n\x00"

/-- One full iteration of the loop body of `outputmsgs`: render the entry,
then write its record. -/
def processEntry (cfg : RunConfig) (fs : String → Bool) (e : Entry) :
    Except Unit (String × List Query × (String → Bool)) := do
  let r ← renderOut cfg fs e
  .ok (record (get_msg_id e) e.sent_at r.1, r.2)

/-- The `for` loop of `outputmsgs` over one batch of entries: the records
written to `dest` in order, the download queries issued in order, and the
final file-system state. -/
def outputmsgs (cfg : RunConfig) (fs : String → Bool) :
    List Entry → Except Unit (List String × List Query × (String → Bool))
  | [] => .ok ([], [], fs)
  | e :: rest => do
    let r ← processEntry cfg fs e
    let rs ← outputmsgs cfg r.2.2 rest
    .ok (r.1 :: rs.1, r.2.1 ++ rs.2.1, rs.2.2)

/-- Modelled from the spec: the final write of the module.  With
`--keep-reverse` the record buffer is hard-linked unchanged to
`conv.log`; otherwise the external `tac -s` utility rewrites it with the
NUL-terminated records in reverse order. -/
def finalLog (keep_reverse : Bool) (buffer : List String) : List String :=
  if keep_reverse then buffer else buffer.reverse

/-!  The pagination driver: the module-level `while` loop.
`t n` is the `pagination.next` cursor returned by fetch number `n`
(`none` when the key is absent). -/

/-- Driver state: still looping with a given `last_page`, or stopped. -/
inductive DState where
  | running (last_page : Option String)
  | done
deriving Repr, DecidableEq

/-- One decision of the `while` loop after a fetch returned cursor `c`:
exit when `c` is falsy (absent or empty), break when it equals
`last_page`, otherwise keep running with `last_page = c`. -/
def stepCursor (last : Option String) (c : Option String) : DState :=
  match c with
  | none => .done
  | some s =>
      if s = "" then .done
      else if some s = last then .done
      else .running (some s)

/-- State of the driver after `n` fetches, fetch `k` returning cursor
`t k`; `done` is absorbing. -/
def driverState (t : Nat → Option String) : Nat → DState
  | 0 => .running none
  | n + 1 =>
      match driverState t n with
      | .done => .done
      | .running last => stepCursor last (t n)

/-- The download query issued for destination `fn` and message id `mid`. -/
def dlQuery (conv_name fn : String) (mid : Int) : Query :=
  { method := .download
    options := .download
      { channel := { name := conv_name }, output := fn, message_id := mid } }

/-- The derived destination path of an `attachment` entry. -/
def destFile (conv_dir : String) (e : Entry) : String :=
  conv_dir ++ "/msg_id_" ++ toString (get_msg_id e) ++ "_"
    ++ replaceSlash e.content.attachmentFilename

/-!  Concrete inputs used by the witnesses and counterexamples. -/

/-- A transport whose cursor sequence is `c1, c2, c1, c2, ...`. -/
def altCursors : Nat → Option String :=
  fun n => some (if n % 2 = 0 then "c1" else "c2")

/-- A transport that returns the cursor `c1` on every fetch. -/
def constC1 : Nat → Option String := fun _ => some "c1"

/-- A newest entry, `sent_at` 5, arriving first. -/
def laterEntry : Entry :=
  { id := 2, sender := "a", sent_at := 5,
    content := { type := "text", textBody := "later" } }

/-- An older entry, `sent_at` 3, arriving second. -/
def earlierEntry : Entry :=
  { id := 1, sender := "a", sent_at := 3,
    content := { type := "text", textBody := "earlier" } }

/-- A message of variant `text` with sender `alice`, body `hello`,
id `42`, `sent_at` 0. -/
def aliceEntry : Entry :=
  { id := 42, sender := "alice", sent_at := 0,
    content := { type := "text", textBody := "hello" } }

/-- An entry with the unrecognised content type `poll`. -/
def pollEntry : Entry :=
  { id := 1, sender := "bob", sent_at := 0, content := { type := "poll" } }

/-- An `attachment` entry whose original filename contains a path
separator. -/
def attachEntry : Entry :=
  { id := 7, sender := "bob", sent_at := 0,
    content := { type := "attachment", attachmentFilename := "a/b.png" } }

/-- A file system on which no path exists. -/
def emptyFs : String → Bool := fun _ => false

/-- A default run configuration. -/
def defaultCfg : RunConfig :=
  { conv_dir := "conv", conv_name := "conv", skip_attachments := false }

/-- The query built by the first `read` call, with no cursor supplied. -/
def firstReadQuery : Query :=
  { method := Method.read
    options := QueryOptions.read
      { channel := { name := "conv" }
        pagination := some { num := 1000, next := some "" } } }

/-!  Helper lemmas. -/

/-- Reduction of `bind` on a successful `Except` value. -/
theorem bind_ok {α β : Type} (a : α) (f : α → Except Unit β) :
    (bind (Except.ok a) f : Except Unit β) = f a := rfl

/-- On an `attachment` entry, `mk_out_filename` succeeds with `destFile`. -/
theorem mk_out_filename_attachment (conv_dir : String) (e : Entry)
    (h : get_content_type e = "attachment") :
    mk_out_filename conv_dir e = .ok (destFile conv_dir e) := by
  simp [mk_out_filename, get_filename, h, bind_ok, destFile]

/-- Case analysis of `renderOut`: it always succeeds; it issues a download
query exactly for content type `attachment` with `--skip-attachments`
unset and a missing destination file, in which case the destination
becomes existing; in every other case the file system is unchanged and no
query is issued. -/
theorem renderOut_effects (cfg : RunConfig) (fs : String → Bool) (e : Entry) :
    ∃ out,
      (get_content_type e ≠ "attachment" ∧
        renderOut cfg fs e = .ok (out, [], fs)) ∨
      (get_content_type e = "attachment" ∧
        ∃ fn, mk_out_filename cfg.conv_dir e = .ok fn ∧
          (((cfg.skip_attachments = true ∨ fs fn = true) ∧
              renderOut cfg fs e = .ok (out, [], fs)) ∨
           (cfg.skip_attachments = false ∧ fs fn = false ∧
              renderOut cfg fs e =
                .ok (out, [dlQuery cfg.conv_name fn (get_msg_id e)],
                     fun f => if f = fn then true else fs f)))) := by
  by_cases h1 : get_content_type e = "text"
  · have he : renderOut cfg fs e =
        .ok ("<" ++ get_sender e ++ "> " ++ e.content.textBody, [], fs) := by
      simp [renderOut, h1]
    exact ⟨_, .inl ⟨by simp [h1], he⟩⟩
  by_cases h2 : get_content_type e = "reaction"
  · have he : renderOut cfg fs e =
        .ok ("* " ++ get_sender e ++ ": " ++ e.content.reactionB, [], fs) := by
      simp [renderOut, h1, h2]
    exact ⟨_, .inl ⟨by simp [h2], he⟩⟩
  by_cases h3 : get_content_type e = "attachment"
  · have hfn := mk_out_filename_attachment cfg.conv_dir e h3
    by_cases hs : cfg.skip_attachments = true
    · have he : renderOut cfg fs e =
          .ok (get_sender e ++ " sent attachment " ++ destFile cfg.conv_dir e,
            [], fs) := by
        simp [renderOut, h1, h2, h3, hfn, bind_ok, hs]
      exact ⟨_, .inr ⟨h3, _, hfn, .inl ⟨.inl hs, he⟩⟩⟩
    rw [Bool.not_eq_true] at hs
    by_cases hf : fs (destFile cfg.conv_dir e) = true
    · have he : renderOut cfg fs e =
          .ok (get_sender e ++ " sent attachment " ++ destFile cfg.conv_dir e,
            [], fs) := by
        simp [renderOut, h1, h2, h3, hfn, bind_ok, hs, hf]
      exact ⟨_, .inr ⟨h3, _, hfn, .inl ⟨.inr hf, he⟩⟩⟩
    · rw [Bool.not_eq_true] at hf
      have he : renderOut cfg fs e =
          .ok (get_sender e ++ " sent attachment " ++ destFile cfg.conv_dir e,
            [dlQuery cfg.conv_name (destFile cfg.conv_dir e) (get_msg_id e)],
            fun f => if f = destFile cfg.conv_dir e then true else fs f) := by
        simp [renderOut, h1, h2, h3, hfn, bind_ok, hs, hf, build_query,
          dlQuery]
      exact ⟨_, .inr ⟨h3, _, hfn, .inr ⟨hs, hf, he⟩⟩⟩
  by_cases h4 : get_content_type e = "attachmentuploaded"
  · have he : renderOut cfg fs e =
        .ok (get_sender e ++ " attachment "
              ++ (cfg.conv_dir ++ "/msg_id_" ++ toString (get_msg_id e)
                  ++ "_" ++ replaceSlash e.content.attachmentUploadedFilename)
              ++ " uploaded", [], fs) := by
      simp [renderOut, h1, h2, h3, h4, mk_out_filename, get_filename,
        bind_ok]
    exact ⟨_, .inl ⟨h3, he⟩⟩
  by_cases h5 : get_content_type e = "edit"
  · have he : renderOut cfg fs e =
        .ok (get_sender e ++ " edited message with id "
              ++ toString e.content.editMessageID ++ " to: "
              ++ e.content.editBody, [], fs) := by
      simp [renderOut, h1, h2, h3, h4, h5]
    exact ⟨_, .inl ⟨h3, he⟩⟩
  by_cases h6 : get_content_type e = "delete"
  · have he : renderOut cfg fs e =
        .ok (get_sender e ++ " deleted message with ids "
              ++ pyStrIntList e.content.deleteMessageIDs, [], fs) := by
      simp [renderOut, h1, h2, h3, h4, h5, h6]
    exact ⟨_, .inl ⟨h3, he⟩⟩
  by_cases h7 : get_content_type e = "unfurl"
  · have he : renderOut cfg fs e =
        .ok (get_sender e ++ " sent unfurl: " ++ e.content.unfurlUrl, [], fs) := by
      simp [renderOut, h1, h2, h3, h4, h5, h6, h7]
    exact ⟨_, .inl ⟨h3, he⟩⟩
  · have he : renderOut cfg fs e =
        .ok ("(unknown message type \x27" ++ get_content_type e ++ "\x27)",
          [], fs) := by
      simp [renderOut, h1, h2, h3, h4, h5, h6, h7]
    exact ⟨_, .inl ⟨h3, he⟩⟩

/-- `renderOut` never fails. -/
theorem renderOut_ok (cfg : RunConfig) (fs : String → Bool) (e : Entry) :
    ∃ r, renderOut cfg fs e = .ok r := by
  obtain ⟨out, h | ⟨-, fn, -, h | h⟩⟩ := renderOut_effects cfg fs e
  · exact ⟨_, h.2⟩
  · exact ⟨_, h.2⟩
  · exact ⟨_, h.2.2⟩

/-- `processEntry` always succeeds and writes exactly the record of its
entry. -/
theorem processEntry_spec (cfg : RunConfig) (fs : String → Bool) (e : Entry) :
    ∃ out dls fs2, processEntry cfg fs e =
      .ok (record (get_msg_id e) e.sent_at out, dls, fs2) := by
  obtain ⟨⟨out, dls, fs2⟩, h⟩ := renderOut_ok cfg fs e
  exact ⟨out, dls, fs2, by simp [processEntry, h, bind_ok]⟩

/-- Master shape lemma for `outputmsgs`: it always succeeds and writes,
in arrival order, exactly one record per entry. -/
theorem outputmsgs_spec (cfg : RunConfig) (fs : String → Bool)
    (entries : List Entry) :
    ∃ outs dls fs2, outs.length = entries.length ∧
      outputmsgs cfg fs entries =
        .ok ((entries.zip outs).map
          (fun p => record (get_msg_id p.1) p.1.sent_at p.2), dls, fs2) := by
  induction entries generalizing fs with
  | nil => exact ⟨[], [], fs, rfl, rfl⟩
  | cons e rest ih =>
      obtain ⟨out, dls1, fs1, h1⟩ := processEntry_spec cfg fs e
      obtain ⟨outs, dls2, fs2, hlen, h2⟩ := ih fs1
      refine ⟨out :: outs, dls1 ++ dls2, fs2, by simp [hlen], ?_⟩
      simp [outputmsgs, h1, bind_ok, h2]

/-- `done` is absorbing for the driver. -/
theorem driverState_done_succ (t : Nat → Option String) (n : Nat)
    (h : driverState t n = .done) : driverState t (n + 1) = .done := by
  simp [driverState, h]

/-- If the driver is still running after `n + 1` fetches, the cursor of
fetch `n` was a nonempty string and is the recorded `last_page`. -/
theorem driverState_running_inv (t : Nat → Option String) (n : Nat)
    (l : Option String) (h : driverState t (n + 1) = .running l) :
    ∃ s, t n = some s ∧ s ≠ "" ∧ l = some s := by
  rw [driverState] at h
  cases hd : driverState t n with
  | done => rw [hd] at h; exact absurd h (by simp)
  | running last =>
      rw [hd] at h
      cases ht : t n with
      | none => rw [ht] at h; simp [stepCursor] at h
      | some s =>
          rw [ht] at h
          by_cases hs : s = ""
          · simp [stepCursor, hs] at h
          · by_cases hl : some s = last
            · simp [stepCursor, hs, hl] at h
            · simp [stepCursor, hs, hl] at h
              exact ⟨s, rfl, hs, h.symm⟩

/-- A falsy cursor (absent or empty) stops the driver at the next check. -/
theorem driverState_falsy (t : Nat → Option String) (n : Nat)
    (h : t n = none ∨ t n = some "") :
    driverState t (n + 1) = .done := by
  rw [driverState]
  cases hd : driverState t n with
  | done => rfl
  | running last => rcases h with h | h <;> simp [stepCursor, h]

/-- Claim C1 (amended): the driver transitions to `DONE` when the next
cursor is empty or absent; a repeat is detected only against the
immediately preceding cursor, so the driver stops (within two further
checks) whenever the transport returns the same cursor twice in a row —
for example on the cursor sequence `[c1, c1]` — but not on `[c1, c2, c1]`,
where the repeated `c1` differs from the immediately preceding `c2`. -/
theorem pagination_driver_stops (t : Nat → Option String) (n : Nat)
    (h : t n = none ∨ t n = some "" ∨ ∃ s, t n = some s ∧ t (n + 1) = some s) :
    driverState t (n + 2) = .done := by
  rcases h with h | h | ⟨s, h1, h2⟩
  · exact driverState_done_succ t (n + 1) (driverState_falsy t n (Or.inl h))
  · exact driverState_done_succ t (n + 1) (driverState_falsy t n (Or.inr h))
  · by_cases hs : s = ""
    · subst hs
      exact driverState_done_succ t (n + 1) (driverState_falsy t n (Or.inr h1))
    · cases hd : driverState t (n + 1) with
      | done => exact driverState_done_succ t (n + 1) hd
      | running l =>
          obtain ⟨s2, hs2, hne2, hl⟩ := driverState_running_inv t n l hd
          have hss : s2 = s := by
            rw [h1] at hs2
            exact (Option.some.inj hs2).symm
          rw [driverState, hd, hl, h2, hss]
          simp [stepCursor, hs]

/-- Claim C1 (counterexample): on the cursor sequence `[c1, c2, c1]` the
driver does not stop after the repeat — after the third fetch (and even
after a fourth) it is still running, because `c1` differs from the
immediately preceding cursor `c2`. -/
theorem pagination_c1c2c1_counterexample :
    altCursors 0 = some "c1" ∧ altCursors 1 = some "c2" ∧
    altCursors 2 = some "c1" ∧
    driverState altCursors 3 ≠ DState.done ∧
    driverState altCursors 4 ≠ DState.done := by
  refine ⟨rfl, rfl, rfl, ?_, ?_⟩ <;> decide

/-- Claim C1 (witness): on the cursor sequence `[c1, c1]` the driver is
done after two fetches. -/
theorem pagination_driver_stops_witness :
    driverState constC1 2 = DState.done :=
  pagination_driver_stops constC1 0 (Or.inr (Or.inr ⟨"c1", rfl, rfl⟩))

/-- Claim C2: with default settings the final log is the reverse of
arrival order — hence, arrival being newest-first (non-increasing
timestamps), it is in non-decreasing timestamp order — while with
`--keep-reverse` the final log is the arrival-order buffer unchanged. -/
theorem log_ordering (cfg : RunConfig) (fs : String → Bool)
    (entries : List Entry)
    (h : (entries.map Entry.sent_at).Chain' (fun a b => b ≤ a)) :
    ∃ r, outputmsgs cfg fs entries = .ok r ∧
      finalLog true r.1 = r.1 ∧
      finalLog false r.1 = r.1.reverse ∧
      r.1.length = entries.length ∧
      (entries.reverse.map Entry.sent_at).Chain' (fun a b => a ≤ b) := by
  obtain ⟨outs, dls, fs2, hlen, hout⟩ := outputmsgs_spec cfg fs entries
  refine ⟨_, hout, rfl, rfl, ?_, ?_⟩
  · simp [hlen]
  · have hmr : entries.reverse.map Entry.sent_at =
        (entries.map Entry.sent_at).reverse := by simp
    rw [hmr, List.chain'_reverse]
    exact h

/-- Claim C2 (witness): a concrete two-entry page in newest-first order. -/
theorem log_ordering_witness :
    ∃ r, outputmsgs defaultCfg emptyFs [laterEntry, earlierEntry] = .ok r ∧
      finalLog true r.1 = r.1 ∧
      finalLog false r.1 = r.1.reverse ∧
      r.1.length = [laterEntry, earlierEntry].length ∧
      ([laterEntry, earlierEntry].reverse.map Entry.sent_at).Chain'
        (fun a b => a ≤ b) :=
  log_ordering defaultCfg emptyFs [laterEntry, earlierEntry]
    (by norm_num [laterEntry, earlierEntry, List.chain'_cons])

/-- Claim C3: on `aliceEntry` the formatter writes exactly the record
`#42 - 1970-01-01 00:00:00 - <alice> hello` followed by the newline and
NUL record terminator, whatever the configuration and file system. -/
theorem text_line_alice (cfg : RunConfig) (fs : String → Bool) :
    processEntry cfg fs aliceEntry =
      .ok ("#42 - 1970-01-01 00:00:00 - <alice> hello\n\x00", [], fs) := rfl

/-- Claim C4: for every page, `outputmsgs` succeeds and writes exactly
one record per message, in arrival order, each of the form
`#<id> - <UTC timestamp> - <rendered content>` terminated by a newline
followed by a NUL byte. -/
theorem one_line_per_message (cfg : RunConfig) (fs : String → Bool)
    (entries : List Entry) :
    ∃ outs dls fs2, List.length outs = entries.length ∧
      outputmsgs cfg fs entries =
        .ok ((entries.zip outs).map
          (fun p => "#" ++ toString (get_msg_id p.1) ++ " - "
            ++ formatUtc p.1.sent_at ++ " - " ++ p.2 ++ "\n\x00"),
          dls, fs2) :=
  outputmsgs_spec cfg fs entries

/-- Claim C5: on any unrecognised content type the formatter does not
fail but renders the explicit placeholder
`(unknown message type '<raw-type>')`. -/
theorem unknown_type_placeholder (cfg : RunConfig) (fs : String → Bool)
    (e : Entry)
    (h : get_content_type e ∉ ["text", "reaction", "attachment",
      "attachmentuploaded", "edit", "delete", "unfurl"]) :
    renderOut cfg fs e =
      .ok ("(unknown message type \x27" ++ get_content_type e ++ "\x27)",
        [], fs) := by
  simp only [List.mem_cons, List.not_mem_nil, or_false, not_or] at h
  obtain ⟨h1, h2, h3, h4, h5, h6, h7⟩ := h
  simp [renderOut, h1, h2, h3, h4, h5, h6, h7]

/-- Claim C5 (witness): content type `poll` renders as
`(unknown message type 'poll')`. -/
theorem unknown_type_placeholder_witness :
    renderOut defaultCfg emptyFs pollEntry =
      .ok ("(unknown message type \x27poll\x27)", [], emptyFs) :=
  unknown_type_placeholder defaultCfg emptyFs pollEntry (by decide)

/-- Processing one entry never makes an existing file disappear. -/
theorem processEntry_fs_mono (cfg : RunConfig) (fs : String → Bool)
    (e : Entry) (r : String × List Query × (String → Bool))
    (h : processEntry cfg fs e = .ok r) (f : String) (hf : fs f = true) :
    r.2.2 f = true := by
  obtain ⟨out, heff⟩ := renderOut_effects cfg fs e
  rcases heff with ⟨-, he⟩ | ⟨-, fn, -, ⟨-, he⟩ | ⟨-, -, he⟩⟩ <;>
    simp [processEntry, he, bind_ok, Prod.ext_iff] at h <;>
    rcases h with ⟨-, -, h2⟩ <;> rw [← h2]
  · exact hf
  · exact hf
  · by_cases heq : f = fn <;> simp [heq, hf]

/-- With `--skip-attachments` unset, after an `attachment` entry is
processed its destination file exists. -/
theorem processEntry_covers (cfg : RunConfig) (fs : String → Bool)
    (e : Entry) (r : String × List Query × (String → Bool))
    (hskip : cfg.skip_attachments = false)
    (hty : get_content_type e = "attachment")
    (h : processEntry cfg fs e = .ok r) :
    r.2.2 (destFile cfg.conv_dir e) = true := by
  obtain ⟨out, heff⟩ := renderOut_effects cfg fs e
  rcases heff with ⟨hne, -⟩ | ⟨-, fn, hfn, hsub⟩
  · exact absurd hty hne
  have hfn' : fn = destFile cfg.conv_dir e := by
    have := mk_out_filename_attachment cfg.conv_dir e hty
    rw [hfn] at this
    exact Except.ok.inj this
  subst hfn'
  rcases hsub with ⟨hor, he⟩ | ⟨-, -, he⟩
  · rcases hor with hsk | hex
    · rw [hsk] at hskip; exact absurd hskip (by simp)
    · simp [processEntry, he, bind_ok, Prod.ext_iff] at h
      rcases h with ⟨-, -, h2⟩
      rw [← h2]; exact hex
  · simp [processEntry, he, bind_ok, Prod.ext_iff] at h
    rcases h with ⟨-, -, h2⟩
    rw [← h2]; simp

/-- If every file an entry could download already exists, processing it
issues no query and leaves the file system unchanged. -/
theorem processEntry_no_download (cfg : RunConfig) (fs : String → Bool)
    (e : Entry) (r : String × List Query × (String → Bool))
    (hcov : get_content_type e = "attachment" →
      fs (destFile cfg.conv_dir e) = true)
    (h : processEntry cfg fs e = .ok r) :
    r.2.1 = [] ∧ r.2.2 = fs := by
  obtain ⟨out, heff⟩ := renderOut_effects cfg fs e
  rcases heff with ⟨-, he⟩ | ⟨hty, fn, hfn, hsub⟩
  · simp [processEntry, he, bind_ok, Prod.ext_iff] at h
    rcases h with ⟨-, h1, h2⟩
    exact ⟨h1, h2.symm⟩
  have hfn' : fn = destFile cfg.conv_dir e := by
    have := mk_out_filename_attachment cfg.conv_dir e hty
    rw [hfn] at this
    exact Except.ok.inj this
  subst hfn'
  rcases hsub with ⟨-, he⟩ | ⟨-, hex, -⟩
  · simp [processEntry, he, bind_ok, Prod.ext_iff] at h
    rcases h with ⟨-, h1, h2⟩
    exact ⟨h1, h2.symm⟩
  · rw [hcov hty] at hex
    exact absurd hex (by simp)

/-- A run of `outputmsgs` never makes an existing file disappear. -/
theorem outputmsgs_fs_mono (cfg : RunConfig) (entries : List Entry) :
    ∀ (fs : String → Bool) r, outputmsgs cfg fs entries = .ok r →
      ∀ f, fs f = true → r.2.2 f = true := by
  induction entries with
  | nil =>
      intro fs r h f hf
      simp [outputmsgs] at h
      subst h
      exact hf
  | cons e rest ih =>
      intro fs r h f hf
      obtain ⟨out1, dls1, fs1, h1⟩ := processEntry_spec cfg fs e
      obtain ⟨outs, dls2, fs2, -, h2⟩ := outputmsgs_spec cfg fs1 rest
      simp [outputmsgs, h1, bind_ok, h2, Prod.ext_iff] at h
      rw [← h.2.2]
      exact ih fs1 _ h2 f
        (processEntry_fs_mono cfg fs e _ h1 f hf)

/-- With `--skip-attachments` unset, after a run of `outputmsgs` the
destination file of every `attachment` entry of the page exists. -/
theorem outputmsgs_covers (cfg : RunConfig)
    (hskip : cfg.skip_attachments = false) (entries : List Entry) :
    ∀ (fs : String → Bool) r, outputmsgs cfg fs entries = .ok r →
      ∀ e ∈ entries, get_content_type e = "attachment" →
        r.2.2 (destFile cfg.conv_dir e) = true := by
  induction entries with
  | nil => intro fs r h e he; exact absurd he (List.not_mem_nil e)
  | cons e0 rest ih =>
      intro fs r h e he hty
      obtain ⟨out1, dls1, fs1, h1⟩ := processEntry_spec cfg fs e0
      obtain ⟨outs, dls2, fs2, -, h2⟩ := outputmsgs_spec cfg fs1 rest
      simp [outputmsgs, h1, bind_ok, h2, Prod.ext_iff] at h
      rcases List.mem_cons.mp he with rfl | hmem
      · rw [← h.2.2]
        exact outputmsgs_fs_mono cfg rest fs1 _ h2 _
          (processEntry_covers cfg fs e _ hskip hty h1)
      · rw [← h.2.2]
        exact ih fs1 _ h2 e hmem hty

/-- If every `attachment` destination of the page already exists, the run
issues no download query at all. -/
theorem outputmsgs_no_download (cfg : RunConfig) (entries : List Entry) :
    ∀ (fs : String → Bool) r,
      (∀ e ∈ entries, get_content_type e = "attachment" →
        fs (destFile cfg.conv_dir e) = true) →
      outputmsgs cfg fs entries = .ok r → r.2.1 = [] := by
  induction entries with
  | nil =>
      intro fs r _ h
      simp [outputmsgs] at h
      subst h
      rfl
  | cons e0 rest ih =>
      intro fs r hcov h
      obtain ⟨out1, dls1, fs1, h1⟩ := processEntry_spec cfg fs e0
      obtain ⟨outs, dls2, fs2, -, h2⟩ := outputmsgs_spec cfg fs1 rest
      obtain ⟨hd1, hfs1⟩ := processEntry_no_download cfg fs e0 _
        (fun hty => hcov e0 (List.mem_cons_self e0 rest) hty) h1
      have hd1x : dls1 = [] := hd1
      have hfs1x : fs1 = fs := hfs1
      simp [outputmsgs, h1, bind_ok, h2, Prod.ext_iff] at h
      rw [← h.2.1]
      have hrest : dls2 = [] := by
        refine ih fs1 _ ?_ h2
        intro e hmem hty
        rw [hfs1x]
        exact hcov e (List.mem_cons_of_mem e0 hmem) hty
      simp [hd1x, hrest]

/-- Claim C6: for an `attachment` entry with `--skip-attachments` unset,
the exporter issues no download query when the destination file already
exists, and exactly one otherwise (after which the destination exists);
hence a second run of the exporter over the same page issues no download
query at all. -/
theorem attachment_download_policy (cfg : RunConfig)
    (hskip : cfg.skip_attachments = false) (fs : String → Bool) (e : Entry)
    (hty : get_content_type e = "attachment") :
    (fs (destFile cfg.conv_dir e) = true →
      ∃ out, renderOut cfg fs e = .ok (out, [], fs)) ∧
    (fs (destFile cfg.conv_dir e) = false →
      ∃ out, renderOut cfg fs e =
        .ok (out,
          [dlQuery cfg.conv_name (destFile cfg.conv_dir e) (get_msg_id e)],
          fun f => if f = destFile cfg.conv_dir e then true else fs f)) ∧
    (∀ (entries : List Entry) r1 r2,
      outputmsgs cfg fs entries = .ok r1 →
      outputmsgs cfg r1.2.2 entries = .ok r2 → r2.2.1 = []) := by
  obtain ⟨out, heff⟩ := renderOut_effects cfg fs e
  have hmain : (fs (destFile cfg.conv_dir e) = true →
      ∃ o, renderOut cfg fs e = .ok (o, [], fs)) ∧
      (fs (destFile cfg.conv_dir e) = false →
        ∃ o, renderOut cfg fs e =
          .ok (o,
            [dlQuery cfg.conv_name (destFile cfg.conv_dir e) (get_msg_id e)],
            fun f => if f = destFile cfg.conv_dir e then true else fs f)) := by
    rcases heff with ⟨hne, -⟩ | ⟨hty', fn, hfn, hsub⟩
    · exact absurd hty hne
    · have hfn' : fn = destFile cfg.conv_dir e := by
        have := mk_out_filename_attachment cfg.conv_dir e hty
        rw [hfn] at this
        exact Except.ok.inj this
      subst hfn'
      rcases hsub with ⟨hor, he⟩ | ⟨-, hex, he⟩
      · rcases hor with hsk | hex
        · rw [hsk] at hskip; exact absurd hskip (by simp)
        · constructor
          · intro _; exact ⟨out, he⟩
          · intro hf; rw [hf] at hex; exact absurd hex (by simp)
      · constructor
        · intro hf; rw [hf] at hex; exact absurd hex (by simp)
        · intro _; exact ⟨out, he⟩
  refine ⟨hmain.1, hmain.2, ?_⟩
  intro entries r1 r2 h1 h2
  exact outputmsgs_no_download cfg entries r1.2.2 r2
    (fun e2 hmem hty2 => outputmsgs_covers cfg hskip entries fs r1 h1 e2 hmem hty2)
    h2

/-- Claim C6 (witness): re-checking: for the concrete attachment entry
with a missing destination the run issues exactly the one download query,
marking the destination as existing. -/
theorem attachment_download_policy_witness :
    ∃ out, renderOut defaultCfg emptyFs attachEntry =
      .ok (out, [dlQuery "conv" "conv/msg_id_7_a_b.png" 7],
        fun f => if f = "conv/msg_id_7_a_b.png" then true else emptyFs f) :=
  (attachment_download_policy defaultCfg rfl emptyFs attachEntry rfl).2.1 rfl

/-- Claim C7 (counterexample): the read query built with no cursor does
not have the cursor absent — its pagination `next` field is present and
holds the empty string. -/
theorem first_call_cursor_counterexample :
    build_query "conv" Method.read none none none none = .ok firstReadQuery ∧
    readNext firstReadQuery = some (some "") ∧
    (some "" : Option String) ≠ none :=
  ⟨rfl, rfl, by decide⟩

/-- Claim C7 (amended): a read query built with no cursor carries the
empty string as its cursor (which the transport treats as starting from
the newest message) and asks for `pagination_size or 1000` messages;
a nonempty supplied cursor is passed through as the request's cursor. -/
theorem read_query_request (conv : String) (size : Option Int) :
    (∃ q, build_query conv Method.read none none none size = .ok q ∧
      readNext q = some (some "") ∧ readNum q = some (pyOrInt size pg)) ∧
    pg = 1000 ∧
    (∀ c : String, c ≠ "" →
      ∃ q, build_query conv Method.read none none (some c) size = .ok q ∧
        readNext q = some (some c) ∧ readNum q = some (pyOrInt size pg)) := by
  refine ⟨⟨_, rfl, rfl, rfl⟩, rfl, ?_⟩
  intro c hc
  refine ⟨_, rfl, ?_, rfl⟩
  simp [readNext, pyOrStr, hc]

/-- Claim C7 (witness): a nonempty cursor is passed through, and the page
size defaults to 1000. -/
theorem read_query_request_witness :
    ∃ q, build_query "conv" Method.read none none (some "CUR") none = .ok q ∧
      readNext q = some (some "CUR") ∧ readNum q = some (pyOrInt none pg) :=
  (read_query_request "conv" none).2.2 "CUR" (by decide)

/-- Claim C8 (counterexample): `build_query` does not always succeed — in
download mode with the optional `message_id` and `file_name` arguments
left out, the source hits a failing `assert`. -/
theorem build_query_assert_counterexample :
    build_query "conv" Method.download none none none none = .error () :=
  rfl

/-- Claim C8 (amended): `build_query` is pure data construction with no
error conditions in read mode; in download mode it succeeds exactly when
both `message_id` and `file_name` are supplied, and fails an assertion
otherwise. -/
theorem build_query_totality (conv : String) (mi : Option Int)
    (f : Option String) (ps : Option String) (sz : Option Int) :
    (∃ q, build_query conv Method.read mi f ps sz = .ok q) ∧
    ((∃ q, build_query conv Method.download mi f ps sz = .ok q) ↔
      mi ≠ none ∧ f ≠ none) := by
  refine ⟨⟨_, rfl⟩, ?_⟩
  constructor
  · rintro ⟨q, hq⟩
    cases f with
    | none => simp [build_query] at hq
    | some fv =>
        cases mi with
        | none => simp [build_query] at hq
        | some mv => exact ⟨by simp, by simp⟩
  · rintro ⟨hmi, hf⟩
    cases f with
    | none => exact absurd rfl hf
    | some fv =>
        cases mi with
        | none => exact absurd rfl hmi
        | some mv => exact ⟨_, rfl⟩

/-- Claim C8 (witness): with both download arguments supplied,
`build_query` succeeds. -/
theorem build_query_totality_witness :
    ∃ q, build_query "conv" Method.download (some 3) (some "f") none none =
      .ok q :=
  (build_query_totality "conv" (some 3) (some "f") none none).2.mpr
    ⟨by decide, by decide⟩

/-- Claim C9: a falsy page size (`0` or `None`) yields a request for the
default 1000 messages, and an empty-string cursor produces the same
request as an absent one. -/
theorem read_falsy_defaults (conv : String) (mi : Option Int)
    (f : Option String) :
    build_query conv Method.read mi f none (some 0) =
      build_query conv Method.read mi f none none ∧
    (∃ q, build_query conv Method.read mi f none (some 0) = .ok q ∧
      readNum q = some 1000) ∧
    (∀ sz : Option Int,
      build_query conv Method.read mi f (some "") sz =
        build_query conv Method.read mi f none sz) :=
  ⟨rfl, ⟨_, rfl, rfl⟩, fun _ => rfl⟩

/-- Claim C10: the fatal branch of `get_filename` — any content type
other than the two attachment variants — is never taken on behalf of
`outputmsgs`, which succeeds on every page. -/
theorem get_filename_fatal_unreachable :
    (∀ e : Entry, get_content_type e ≠ "attachment" →
      get_content_type e ≠ "attachmentuploaded" →
      get_filename e = .error ()) ∧
    (∀ (cfg : RunConfig) (fs : String → Bool) (entries : List Entry),
      ∃ r, outputmsgs cfg fs entries = .ok r) := by
  constructor
  · intro e h1 h2
    simp [get_filename, h1, h2]
  · intro cfg fs entries
    obtain ⟨outs, dls, fs2, -, hout⟩ := outputmsgs_spec cfg fs entries
    exact ⟨_, hout⟩

/-- Claim C10 (witness): `get_filename` does fail on a `poll` entry in
isolation, yet `outputmsgs` succeeds on a page containing it. -/
theorem get_filename_fatal_unreachable_witness :
    get_filename pollEntry = .error () ∧
    ∃ r, outputmsgs defaultCfg emptyFs [pollEntry, aliceEntry, attachEntry] =
      .ok r :=
  ⟨get_filename_fatal_unreachable.1 pollEntry (by decide) (by decide),
    get_filename_fatal_unreachable.2 defaultCfg emptyFs
      [pollEntry, aliceEntry, attachEntry]⟩

end Kbe
